import Mathlib

/-!
Verification of the conversation/session engine of the PyQt6 LLM chat client
(`llm_chat_client_pyqt6.py`): the streaming dispatch of `StreamWorker.run`,
sampling-parameter sanitization (`_sanitize_sampling` / `_create_args`),
conversation titling (`get_conversation_title`), settings loading
(`load_settings`), the conversation store (`save_conversation`,
`load_conversation`, `list_conversations`) and token estimation
(`estimate_tokens`), shallowly embedded as pure Lean functions.
-/

namespace LLMChat

/-- A chat message dict: `{"role": ..., "content": ...}`. -/
structure Message where
  role : String
  content : String
deriving DecidableEq, Repr

/-- The module constant `SYSTEM_PROMPT`. -/
def SYSTEM_PROMPT : String :=
  "You are a helpful AI assistant. Provide clear, concise, and accurate responses."

/-! ### Sampling sanitization (`_sanitize_sampling`, `_create_args`) -/

/-- A Python value passed as a sampling parameter: either a value that
`float(x)` converts to the rational `q`, or one on which `float(x)` raises
(the `except` branch of `clamp`). Python `None` is modelled by the
surrounding `Option`. -/
inductive PyVal where
  | num (q : ℚ)
  | nonnum
deriving DecidableEq, Repr

/-- The inner `clamp(x, lo, hi)` of `_sanitize_sampling`:
`max(lo, min(hi, float(x)))`, or `None` when `float(x)` raises. -/
def clamp (x : PyVal) (lo hi : ℚ) : Option ℚ :=
  match x with
  | .num q => some (max lo (min hi q))
  | .nonnum => none

/-- `_sanitize_sampling(temperature, top_p)`: clamp each non-`None` argument
into `[0, 1]`; if both clamp to a number, drop `top_p`. -/
def _sanitize_sampling (temperature top_p : Option PyVal) : Option ℚ × Option ℚ :=
  let t := temperature.bind (fun x => clamp x 0 1)
  let p := top_p.bind (fun x => clamp x 0 1)
  if t.isSome ∧ p.isSome then (t, none) else (t, p)

/-- The kwargs dict built by `_create_args` for `client.messages.stream`. -/
structure CreateArgs where
  model : String
  system : String
  messages : List Message
  max_tokens : ℕ
  temperature : Option ℚ
  top_p : Option ℚ
deriving DecidableEq, Repr

/-- `_create_args(model_name, system, convo)`, with the module globals
`current_sampling_mode`, `current_temperature` and `current_top_p` passed
explicitly. -/
def _create_args (current_sampling_mode : String)
    (current_temperature current_top_p : Option PyVal)
    (model_name system : String) (convo : List Message) : CreateArgs :=
  let temp := if current_sampling_mode = "temperature" then current_temperature else none
  let top_p_val := if current_sampling_mode = "top_p" then current_top_p else none
  let tp := _sanitize_sampling temp top_p_val
  { model := model_name
    system := system
    messages := convo
    max_tokens := 4096
    temperature := tp.1
    top_p := match tp.1 with
      | some _ => none
      | none => tp.2 }

/-! ### Token estimation (`estimate_tokens`) -/

/-- `estimate_tokens(text)`. The exact tokenizer (`tiktoken`, encoding
`cl100k_base`) is an external collaborator, modelled as an abstract counting
function `enc`; `enc = none` is the fallback path (tiktoken unavailable or
its use raising): `len(text) // 4`. -/
def estimate_tokens (enc : Option (String → ℕ)) (text : String) : ℕ :=
  match enc with
  | some f => f text
  | none => text.length / 4

/-! ### Conversation titles (`get_conversation_title`,
`auto_save_current_conversation`) -/

/-- Python slicing `s[:n]`: the first `n` characters (code points). -/
def pySlice (s : String) (n : ℕ) : String :=
  String.mk (s.data.take n)

/-- Python `str.strip()`: remove leading and trailing whitespace characters
(modelled for the common whitespace set `' '`, `'\t'`, `'\n'`, `'\r'`). -/
def pyStrip (s : String) : String :=
  String.mk (((s.data.dropWhile Char.isWhitespace).reverse.dropWhile
    Char.isWhitespace).reverse)

/-- `get_conversation_title(msgs)`: from the first `user`-role message, take
the first 40 characters, strip surrounding whitespace, append `"..."` when
the content is longer than 40 characters; `"New Chat"` when the result is
empty (`title or "New Chat"`) or when no user message exists. -/
def get_conversation_title (msgs : List Message) : String :=
  match msgs.find? (fun m => m.role == "user") with
  | some m =>
    let content := m.content
    let t := pyStrip (pySlice content 40)
    let t2 := if content.length > 40 then t ++ "..." else t
    if t2 = "" then "New Chat" else t2
  | none => "New Chat"

/-- The title update performed by `auto_save_current_conversation`: the
current title is recomputed via `get_conversation_title` only while it is
still the sentinel `"New Chat"`. -/
def auto_save_title (current_title : String) (msgs : List Message) : String :=
  if current_title = "New Chat" then get_conversation_title msgs else current_title

/-! ### Settings (`load_settings`) -/

/-- A JSON scalar as found in the settings file. -/
inductive JVal where
  | null
  | num (q : ℚ)
  | str (s : String)
deriving DecidableEq, Repr

/-- The module globals set by `load_settings`. -/
structure SamplingGlobals where
  current_temperature : JVal
  current_top_p : JVal
  current_sampling_mode : JVal
deriving DecidableEq, Repr

/-- The initial values of the sampling globals: `DEFAULT_TEMPERATURE = 0.9`,
`DEFAULT_TOP_P = None`, `current_sampling_mode = "temperature"`. -/
def defaultSampling : SamplingGlobals :=
  { current_temperature := JVal.num (9 / 10)
    current_top_p := JVal.null
    current_sampling_mode := JVal.str "temperature" }

/-- Python `dict.get(key, default)` over a parsed JSON object. -/
def dictGet (d : List (String × JVal)) (k : String) (dflt : JVal) : JVal :=
  match d.find? (fun e => e.1 == k) with
  | some e => e.2
  | none => dflt

/-- `load_settings()`. The settings file is `none` when `SETTINGS_FILE`
does not exist, `some none` when it exists but `json.load` raises (the
`except Exception: pass` branch), and `some (some d)` when it parses to the
object `d`. The function returns the new values of the globals; it is total,
so it never raises. -/
def load_settings (file : Option (Option (List (String × JVal))))
    (st : SamplingGlobals) : SamplingGlobals :=
  match file with
  | none => st
  | some none => st
  | some (some d) =>
    { current_temperature := dictGet d "temperature" (JVal.num (9 / 10))
      current_top_p := dictGet d "top_p" JVal.null
      current_sampling_mode := dictGet d "sampling_mode" (JVal.str "temperature") }

/-! ### Conversation store (`save_conversation`, `load_conversation`,
`list_conversations`) -/

/-- A persisted conversation record, one JSON file per conversation:
`{"id": ..., "title": ..., "messages": ..., "timestamp": ...}`. The
timestamp is the ISO-8601 string produced by `datetime.now().isoformat()`. -/
structure Record where
  id : String
  title : String
  messages : List Message
  timestamp : String
deriving DecidableEq, Repr

/-- The conversations directory, as a map from file key (the conversation
id, i.e. the stem of `{id}.json`) to the stored record. -/
abbrev Store := List (String × Record)

/-- `save_conversation(conv_id, title, msgs)`: `if not conv_id: return`
(Python falsy: `None` or the empty string), otherwise overwrite the file
`{conv_id}.json` with the full record; `now` is `datetime.now().isoformat()`
at the time of the save. -/
def save_conversation (now : String) (conv_id : Option String) (title : String)
    (msgs : List Message) (store : Store) : Store :=
  match conv_id with
  | none => store
  | some cid =>
    if cid = "" then store
    else (cid, { id := cid, title := title, messages := msgs, timestamp := now }) ::
      store.filter (fun e => e.1 != cid)

/-- `load_conversation(conv_id)`: return the parsed record, or `None` when
`{conv_id}.json` does not exist. -/
def load_conversation (conv_id : String) (store : Store) : Option Record :=
  (store.find? (fun e => e.1 == conv_id)).map (fun e => e.2)

/-- The sort relation of `list_conversations`: descending by the string
`timestamp` (`sort(key=..., reverse=True)`). Python compares strings
lexicographically by code point, which is the lexicographic order on the
character lists. -/
def byTsDesc (a b : Record) : Prop := b.timestamp.data ≤ a.timestamp.data

instance : DecidableRel byTsDesc :=
  fun a b => inferInstanceAs (Decidable (b.timestamp.data ≤ a.timestamp.data))

instance : IsTotal Record byTsDesc :=
  ⟨fun a b => le_total b.timestamp.data a.timestamp.data⟩

instance : IsTrans Record byTsDesc :=
  ⟨fun _ _ _ h1 h2 => le_trans h2 h1⟩

/-- `list_conversations()`: read every `*.json` file in the directory,
skipping any whose read or parse raises (modelled as `none` entries), then
sort by timestamp descending. -/
def list_conversations (files : List (Option Record)) : List Record :=
  (files.filterMap id).insertionSort byTsDesc

/-! ### Streaming dispatch (`StreamWorker.run`) -/

/-- An event emitted through `StreamSignals`: `text_chunk`, `finished` or
`error`. -/
inductive Event where
  | chunk (s : String)
  | finished (s : String)
  | error (s : String)
deriving DecidableEq, Repr

/-- Whether an event is terminal (`finished` or `error`). -/
def Event.isTerminal : Event → Bool
  | .chunk _ => false
  | .finished _ => true
  | .error _ => true

/-- One dispatched backend streaming call: the text deltas the backend
yielded through `stream.text_stream`, and — when the call raised (at any
point: connecting, mid-stream, or a malformed stream) — the exception's
type name and message, raised after the listed deltas were yielded.
`failure = none` means the stream completed normally. -/
structure Backend where
  deltas : List String
  failure : Option (String × String)
deriving DecidableEq, Repr

/-- The error string synthesized by the `except` branch of
`StreamWorker.run`: `f"(API error: {type(e).__name__}: {e})"` for an
exception with type name `en` and message `em`. -/
def errorDescriptor (en em : String) : String :=
  "(API error: " ++ en ++ ": " ++ em ++ ")"

namespace StreamWorker

/-- `StreamWorker.run(self)`, for one `start` call, as a pure function from
the user text, the shared `messages` list and the backend's behaviour to the
final messages list and the ordered sequence of emitted signals. The user
message is appended first; each delta is accumulated into `out` and emitted
as a `text_chunk`; on completion an empty accumulator is replaced by
`"(Empty response)"`, the assistant message is appended and `finished`
emitted; on an exception the error descriptor is appended as the assistant
message and `error` emitted. -/
def run (user_text : String) (messages_list : List Message) (b : Backend) :
    List Message × List Event :=
  let msgs1 := messages_list ++ [{ role := "user", content := user_text }]
  let chunks := b.deltas.map Event.chunk
  match b.failure with
  | some (en, em) =>
    let msg := errorDescriptor en em
    (msgs1 ++ [{ role := "assistant", content := msg }], chunks ++ [Event.error msg])
  | none =>
    let out := String.join b.deltas
    let finalText := if out = "" then "(Empty response)" else out
    (msgs1 ++ [{ role := "assistant", content := finalText }],
      chunks ++ [Event.finished finalText])

end StreamWorker

/-! ### Claims -/

/-- Claim C10: `save_conversation` called with an empty or absent
conversation id returns without writing any record, raising no error and
leaving the store unchanged. -/
theorem save_conversation_falsy_id_noop :
    ∀ (now title : String) (msgs : List Message) (store : Store),
      save_conversation now none title msgs store = store ∧
      save_conversation now (some "") title msgs store = store := by
  intro now title msgs store
  exact ⟨rfl, by simp [save_conversation]⟩

/-- Claim C6: `load_settings` never raises (it is a total function of the
file contents); when the settings file is missing or fails to parse the
globals are left untouched, so starting from the initial defaults the
resulting sampling configuration is
`{mode: temperature, temperature: 0.9, topP: absent}`. -/
theorem load_settings_failure_defaults :
    ∀ file : Option (Option (List (String × JVal))),
      file = none ∨ file = some none →
      (∀ st, load_settings file st = st) ∧
      load_settings file defaultSampling =
        { current_temperature := JVal.num (9 / 10)
          current_top_p := JVal.null
          current_sampling_mode := JVal.str "temperature" } := by
  intro file h
  rcases h with h | h <;> subst h <;> exact ⟨fun st => rfl, rfl⟩

theorem load_settings_failure_defaults_witness :
    load_settings none defaultSampling =
      { current_temperature := JVal.num (9 / 10)
        current_top_p := JVal.null
        current_sampling_mode := JVal.str "temperature" } :=
  (load_settings_failure_defaults none (Or.inl rfl)).2

/-- Claim C9: `estimate_tokens` is non-decreasing under concatenation: in
the fallback mode it equals `len(text) // 4`, which is monotone, and in the
exact-tokenizer mode it is monotone whenever the external tokenizer obeys
its contract of monotone counting. Determinism holds because the embedding
is a function of its input. -/
theorem estimate_tokens_monotone :
    (∀ a b : String, estimate_tokens none a ≤ estimate_tokens none (a ++ b)) ∧
    (∀ a : String, estimate_tokens none a = a.length / 4) ∧
    (∀ f : String → ℕ, (∀ a b : String, f a ≤ f (a ++ b)) →
      ∀ a b : String, estimate_tokens (some f) a ≤ estimate_tokens (some f) (a ++ b)) := by
  refine ⟨fun a b => ?_, fun a => rfl, fun f hf a b => hf a b⟩
  simp only [estimate_tokens, String.length_append]
  exact Nat.div_le_div_right (Nat.le_add_right _ _)

theorem estimate_tokens_monotone_witness :
    estimate_tokens (some String.length) "ab" ≤
      estimate_tokens (some String.length) ("ab" ++ "c") :=
  estimate_tokens_monotone.2.2 String.length
    (fun a b => by simp [String.length_append]) "ab" "c"

/-- Claim C4: `_sanitize_sampling` clamps each numeric input into `[0, 1]`,
maps non-numeric or absent inputs to absent, and when both inputs are
numeric drops `top_p` so exactly one parameter survives; in particular
`sanitize(1.5, 0.5)` yields temperature `1.0` and no `top_p`, and the
kwargs built by `_create_args` carry at most one of
`temperature` / `top_p` together with `max_tokens = 4096`. -/
theorem sanitize_sampling_spec :
    (∀ (q : ℚ) (p : Option PyVal),
        (_sanitize_sampling (some (PyVal.num q)) p).1 = some (max 0 (min 1 q)) ∧
        0 ≤ max 0 (min 1 q) ∧ max 0 (min 1 q) ≤ 1) ∧
    (∀ (t : Option PyVal) (q : ℚ), t = none ∨ t = some PyVal.nonnum →
        (_sanitize_sampling t (some (PyVal.num q))).2 = some (max 0 (min 1 q))) ∧
    (∀ p : Option PyVal,
        (_sanitize_sampling none p).1 = none ∧
        (_sanitize_sampling (some PyVal.nonnum) p).1 = none) ∧
    (∀ t : Option PyVal,
        (_sanitize_sampling t none).2 = none ∧
        (_sanitize_sampling t (some PyVal.nonnum)).2 = none) ∧
    (∀ q1 q2 : ℚ,
        _sanitize_sampling (some (PyVal.num q1)) (some (PyVal.num q2)) =
          (some (max 0 (min 1 q1)), none)) ∧
    _sanitize_sampling (some (PyVal.num (3 / 2))) (some (PyVal.num (1 / 2))) =
      (some 1, none) ∧
    (∀ (mode : String) (ct cp : Option PyVal) (m s : String) (convo : List Message),
        (_create_args mode ct cp m s convo).max_tokens = 4096 ∧
        ((_create_args mode ct cp m s convo).temperature = none ∨
          (_create_args mode ct cp m s convo).top_p = none)) := by
  have hclamp : ∀ q : ℚ, 0 ≤ max 0 (min 1 q) ∧ max 0 (min 1 q) ≤ 1 := by
    intro q
    exact ⟨le_max_left 0 _, max_le (by norm_num) (min_le_left 1 q)⟩
  refine ⟨?_, ?_, ?_, ?_, ?_, ?_, ?_⟩
  · intro q p
    refine ⟨?_, hclamp q⟩
    rcases p with _ | x
    · simp [_sanitize_sampling, clamp]
    · rcases x with q2 | _ <;> simp [_sanitize_sampling, clamp]
  · intro t q h
    rcases h with h | h <;> subst h <;> simp [_sanitize_sampling, clamp]
  · intro p
    constructor <;> · simp [_sanitize_sampling, clamp]
  · intro t
    constructor <;>
    · rcases t with _ | x
      · simp [_sanitize_sampling, clamp]
      · rcases x with q2 | _ <;> simp [_sanitize_sampling, clamp]
  · intro q1 q2
    simp [_sanitize_sampling, clamp]
  · have h32 : max (0 : ℚ) (min 1 (3 / 2)) = 1 := by
      rw [min_eq_left (by norm_num), max_eq_right (by norm_num)]
    simp [_sanitize_sampling, clamp, h32]
  · intro mode ct cp m s convo
    refine ⟨rfl, ?_⟩
    simp only [_create_args]
    rcases h1 : (_sanitize_sampling (if mode = "temperature" then ct else none)
        (if mode = "top_p" then cp else none)).1 with _ | v
    · exact Or.inl (by simp [h1])
    · exact Or.inr (by simp [h1])

theorem sanitize_sampling_spec_witness :
    (_sanitize_sampling none (some (PyVal.num (1 / 2)))).2 =
      some (max 0 (min 1 (1 / 2))) :=
  sanitize_sampling_spec.2.1 none (1 / 2) (Or.inl rfl)

/-- Claim C8: for a non-empty id, `load_conversation` after
`save_conversation` yields a record with the saved message sequence and
title; repeated saves of the same state produce the same stored record; and
loading a missing id returns `none` without throwing. -/
theorem save_load_roundtrip :
    ∀ (now cid title : String) (msgs : List Message) (store : Store),
      cid ≠ "" →
      (load_conversation cid (save_conversation now (some cid) title msgs store) =
        some { id := cid, title := title, messages := msgs, timestamp := now }) ∧
      (save_conversation now (some cid) title msgs
          (save_conversation now (some cid) title msgs store) =
        save_conversation now (some cid) title msgs store) ∧
      (∀ (cid2 : String) (store2 : Store),
        (∀ e ∈ store2, e.1 ≠ cid2) → load_conversation cid2 store2 = none) := by
  intro now cid title msgs store h
  refine ⟨?_, ?_, ?_⟩
  · simp [save_conversation, load_conversation, h, List.find?]
  · simp [save_conversation, h, List.filter_filter]
  · intro cid2 store2 h2
    have hf : store2.find? (fun e => e.1 == cid2) = none := by
      rw [List.find?_eq_none]
      intro e he
      simpa using h2 e he
    simp [load_conversation, hf]

theorem save_load_roundtrip_witness :
    load_conversation "c1"
        (save_conversation "2024-01-01T00:00:00" (some "c1") "T" [] []) =
      some { id := "c1", title := "T", messages := [], timestamp := "2024-01-01T00:00:00" } :=
  (save_load_roundtrip "2024-01-01T00:00:00" "c1" "T" [] [] (by decide)).1

/-- Claim C7: `list_conversations` returns the readable records sorted by
timestamp descending (unreadable or corrupt records are skipped, not
fatal); with three saved records at timestamps T1 < T2 < T3 and one corrupt
file it returns them as `[T3, T2, T1]`. -/
theorem list_conversations_sorted :
    (∀ files : List (Option Record),
        (list_conversations files).Pairwise byTsDesc ∧
        (list_conversations files).Perm (files.filterMap id)) ∧
    list_conversations
        [some { id := "a", title := "A", messages := [], timestamp := "2024-01-01T00:00:00" },
          none,
          some { id := "b", title := "B", messages := [], timestamp := "2024-01-02T00:00:00" },
          some { id := "c", title := "C", messages := [], timestamp := "2024-01-03T00:00:00" }] =
      [{ id := "c", title := "C", messages := [], timestamp := "2024-01-03T00:00:00" },
        { id := "b", title := "B", messages := [], timestamp := "2024-01-02T00:00:00" },
        { id := "a", title := "A", messages := [], timestamp := "2024-01-01T00:00:00" }] := by
  constructor
  · intro files
    exact ⟨List.sorted_insertionSort byTsDesc _, List.perm_insertionSort byTsDesc _⟩
  · set_option maxRecDepth 4000 in decide

/-- The title suffix `"..."` makes a string non-empty. -/
lemma append_dots_ne_empty (s : String) : s ++ "..." ≠ "" := by
  intro h
  have hl := congrArg String.length h
  rw [String.length_append] at hl
  have h3 : "...".length = 3 := by decide
  have h0 : String.length "" = 0 := by decide
  omega

/-- Claim C5 (amended): the title is the stripped first-40-character slice
of the first user message's content with the three-character ASCII suffix
`"..."` (not the one-character ellipsis) appended exactly when the content
is longer than 40 characters; `"New Chat"` is returned when no user message
exists or when the stripped slice is empty; and a title other than the
sentinel is not recomputed on later auto-saves. -/
theorem get_conversation_title_spec :
    ∀ msgs : List Message,
      (∀ m, msgs.find? (fun x => x.role == "user") = some m →
        (m.content.length > 40 →
          get_conversation_title msgs = pyStrip (pySlice m.content 40) ++ "...") ∧
        (m.content.length ≤ 40 → pyStrip (pySlice m.content 40) ≠ "" →
          get_conversation_title msgs = pyStrip (pySlice m.content 40)) ∧
        (m.content.length ≤ 40 → pyStrip (pySlice m.content 40) = "" →
          get_conversation_title msgs = "New Chat")) ∧
      (msgs.find? (fun x => x.role == "user") = none →
        get_conversation_title msgs = "New Chat") ∧
      (∀ title, title ≠ "New Chat" → auto_save_title title msgs = title) := by
  intro msgs
  refine ⟨?_, ?_, ?_⟩
  · intro m hm
    refine ⟨fun hlen => ?_, fun hlen hne => ?_, fun hlen he => ?_⟩
    · simp only [get_conversation_title, hm, if_pos hlen]
      rw [if_neg (append_dots_ne_empty _)]
    · simp only [get_conversation_title, hm, if_neg (by omega : ¬ m.content.length > 40)]
      rw [if_neg hne]
    · simp only [get_conversation_title, hm, if_neg (by omega : ¬ m.content.length > 40)]
      rw [if_pos he]
  · intro hnone
    simp [get_conversation_title, hnone]
  · intro title ht
    simp [auto_save_title, ht]

theorem get_conversation_title_spec_witness :
    get_conversation_title [{ role := "user", content := "hi" }] = "hi" ∧
    get_conversation_title
        [{ role := "user", content := String.mk (List.replicate 41 'b') }] =
      String.mk (List.replicate 40 'b') ++ "..." ∧
    get_conversation_title [{ role := "assistant", content := "x" }] = "New Chat" ∧
    get_conversation_title [{ role := "user", content := "   " }] = "New Chat" ∧
    auto_save_title "Existing title" [] = "Existing title" := by
  refine ⟨?_, ?_, ?_, ?_, ?_⟩
  · have h := ((get_conversation_title_spec [{ role := "user", content := "hi" }]).1
      { role := "user", content := "hi" } (by decide)).2.1 (by decide) (by decide)
    exact h.trans (by decide)
  · have h := ((get_conversation_title_spec
        [{ role := "user", content := String.mk (List.replicate 41 'b') }]).1
      { role := "user", content := String.mk (List.replicate 41 'b') }
      (set_option maxRecDepth 2000 in by decide)).1
      (set_option maxRecDepth 2000 in by decide)
    exact h.trans (set_option maxRecDepth 4000 in by decide)
  · exact (get_conversation_title_spec
      [{ role := "assistant", content := "x" }]).2.1 (by decide)
  · exact ((get_conversation_title_spec [{ role := "user", content := "   " }]).1
      { role := "user", content := "   " } (by decide)).2.2 (by decide) (by decide)
  · exact (get_conversation_title_spec []).2.2 "Existing title" (by decide)

/-- Claim C5, original form, refuted: for a 41-character user message the
code appends the three ASCII dots `"..."`, not the one-character ellipsis
`"…"` stated by the claim. -/
theorem get_conversation_title_ellipsis_cex :
    get_conversation_title
        [{ role := "user", content := String.mk (List.replicate 41 'a') }] =
      String.mk (List.replicate 40 'a') ++ "..." ∧
    get_conversation_title
        [{ role := "user", content := String.mk (List.replicate 41 'a') }] ≠
      pyStrip (pySlice (String.mk (List.replicate 41 'a')) 40) ++ "…" := by
  constructor <;> · set_option maxRecDepth 4000 in decide

/-- The chunk events of a turn contain no terminal event. -/
lemma filter_isTerminal_map_chunk (l : List String) :
    (l.map Event.chunk).filter Event.isTerminal = [] := by
  induction l with
  | nil => rfl
  | cons a l ih => simp [Event.isTerminal, ih]

/-- Claim C1: every dispatched turn appends exactly one assistant-role
entry right after the user message; on a failure the appended content is
the error descriptor naming the exception type and message, and the only
terminal event is one `error` event carrying that descriptor. -/
theorem streamWorker_run_error_resolution :
    ∀ (ut : String) (ml : List Message) (b : Backend),
      (∃ c, (StreamWorker.run ut ml b).1 =
        ml ++ [{ role := "user", content := ut },
          { role := "assistant", content := c }]) ∧
      (∀ en em, b.failure = some (en, em) →
        (StreamWorker.run ut ml b).1 =
          ml ++ [{ role := "user", content := ut },
            { role := "assistant", content := errorDescriptor en em }] ∧
        (StreamWorker.run ut ml b).2.filter Event.isTerminal =
          [Event.error (errorDescriptor en em)]) := by
  intro ut ml b
  constructor
  · rcases hb : b.failure with _ | ⟨en, em⟩
    · exact ⟨if String.join b.deltas = "" then "(Empty response)" else String.join b.deltas,
        by simp [StreamWorker.run, hb]⟩
    · exact ⟨errorDescriptor en em, by simp [StreamWorker.run, hb]⟩
  · intro en em hb
    constructor
    · simp [StreamWorker.run, hb]
    · simp [StreamWorker.run, hb, List.filter_append, filter_isTerminal_map_chunk,
        Event.isTerminal]

theorem streamWorker_run_error_resolution_witness :
    (StreamWorker.run "hi" []
        { deltas := ["Hel"], failure := some ("APIError", "boom") }).1 =
      [{ role := "user", content := "hi" },
        { role := "assistant", content := "(API error: APIError: boom)" }] ∧
    (StreamWorker.run "hi" []
        { deltas := ["Hel"], failure := some ("APIError", "boom") }).2.filter
      Event.isTerminal = [Event.error "(API error: APIError: boom)"] := by
  have h := (streamWorker_run_error_resolution "hi" []
    { deltas := ["Hel"], failure := some ("APIError", "boom") }).2 "APIError" "boom" rfl
  exact ⟨h.1.trans (by decide), h.2.trans (by decide)⟩

/-- Claim C2: per `start` call exactly one terminal event fires, never zero
and never both, and the event sequence is exactly the backend's deltas as
chunk events, in order, followed by the single terminal event. -/
theorem streamWorker_run_one_terminal :
    ∀ (ut : String) (ml : List Message) (b : Backend),
      (StreamWorker.run ut ml b).2.countP Event.isTerminal = 1 ∧
      ∃ t, Event.isTerminal t = true ∧
        (StreamWorker.run ut ml b).2 = b.deltas.map Event.chunk ++ [t] := by
  intro ut ml b
  have hc : ∀ l : List String, (l.map Event.chunk).countP Event.isTerminal = 0 := by
    intro l
    rw [List.countP_eq_length_filter, filter_isTerminal_map_chunk]
    rfl
  rcases hb : b.failure with _ | ⟨en, em⟩
  · refine ⟨?_, ⟨Event.finished
      (if String.join b.deltas = "" then "(Empty response)" else String.join b.deltas),
      rfl, by simp [StreamWorker.run, hb]⟩⟩
    simp [StreamWorker.run, hb, List.countP_append, hc, List.countP_cons, Event.isTerminal]
  · refine ⟨?_, ⟨Event.error (errorDescriptor en em), rfl,
      by simp [StreamWorker.run, hb]⟩⟩
    simp [StreamWorker.run, hb, List.countP_append, hc, List.countP_cons, Event.isTerminal]

/-- Claim C3: the simulated turn `"hi"` with deltas `["Hel", "lo"]` grows
the conversation by exactly the messages `{user, "hi"}` then
`{assistant, "Hello"}` and emits the two chunks then `finished "Hello"`;
the user message is appended independent of any backend activity; an empty
completed stream yields the `"(Empty response)"` placeholder both in the
appended assistant message and in the finished payload. -/
theorem streamWorker_run_turn_simulation :
    (∀ ml : List Message,
        StreamWorker.run "hi" ml { deltas := ["Hel", "lo"], failure := none } =
          (ml ++ [{ role := "user", content := "hi" },
            { role := "assistant", content := "Hello" }],
            [Event.chunk "Hel", Event.chunk "lo", Event.finished "Hello"])) ∧
    (∀ (ut : String) (ml : List Message) (b : Backend),
        ∃ rest, (StreamWorker.run ut ml b).1 =
          ml ++ [{ role := "user", content := ut }] ++ rest) ∧
    (∀ (ut : String) (ml : List Message) (b : Backend),
        b.failure = none → String.join b.deltas = "" →
        (StreamWorker.run ut ml b).1 =
          ml ++ [{ role := "user", content := ut },
            { role := "assistant", content := "(Empty response)" }] ∧
        (StreamWorker.run ut ml b).2 =
          b.deltas.map Event.chunk ++ [Event.finished "(Empty response)"]) := by
  refine ⟨?_, ?_, ?_⟩
  · intro ml
    have hj : String.join ["Hel", "lo"] = "Hello" := by decide
    simp [StreamWorker.run, hj]
  · intro ut ml b
    rcases hb : b.failure with _ | ⟨en, em⟩
    · exact ⟨[{ role := "assistant", content :=
        if String.join b.deltas = "" then "(Empty response)" else String.join b.deltas }],
        by simp [StreamWorker.run, hb]⟩
    · exact ⟨[{ role := "assistant", content := errorDescriptor en em }],
        by simp [StreamWorker.run, hb]⟩
  · intro ut ml b hb hj
    constructor <;> simp [StreamWorker.run, hb, hj]

theorem streamWorker_run_turn_simulation_witness :
    (StreamWorker.run "x" [] { deltas := [], failure := none }).1 =
      [{ role := "user", content := "x" },
        { role := "assistant", content := "(Empty response)" }] := by
  have h := (streamWorker_run_turn_simulation.2.2 "x" []
    { deltas := [], failure := none } rfl rfl).1
  exact h.trans (by decide)

end LLMChat
